import Mathlib

/-!
Shallow embedding of the build-configuration core of `setup.py` from the
pyvinecopulib repository, together with theorems settling the specified
properties of its components:

* `has_flag`      — compiler-flag probing (CompilerProbe / testFlag);
* `cpp_flag`      — language-standard selection (StandardSelector / selectStandard);
* `build_extensions` — per-toolchain-family flag resolution (PlatformFlagPolicy,
  including the class-level `c_opts` / `l_opts` tables, the version macro
  quoting, the optional `-fvisibility=hidden` probe and the defensive removal
  of `-Wstrict-prototypes`);
* `extract_boost` — idempotent extraction of the bundled boost archive
  (ArchiveExtractor / ensureExtracted);
* `get_files` / `get_include_paths` — dependency-file enumeration over the
  include directories (BuildOrchestrator).

Python exceptions are modelled by an explicit error type `PyExc`; fallible
operations return `Except PyExc _`.  The shared mutable class-scope flag
tables of `BuildExt` are modelled by an explicit `BuildTables` state threaded
through `build_extensions`, reproducing the aliasing of
`opts = self.c_opts.get(ct, [])` (appends through the alias write back into
the class-level table).  The filesystem seen by `os.walk` / `glob` is
modelled by the rose tree `FsEntry`.
-/

namespace SetupPy

/-- Python exception values relevant to `setup.py`:
`distutils.errors.CompileError`, `RuntimeError(msg)`, `IndexError` (from
`glob(...)[0]` on an empty match list), `ValueError` (from `list.remove` of an
absent element), `AttributeError` (missing `compiler_so`), and a catch-all for
any other exception class (e.g. `DistutilsExecError`, `DistutilsPlatformError`,
`tarfile.ExtractError`). -/
inductive PyExc where
  | compileError
  | runtimeError (msg : String)
  | indexError
  | valueError
  | attributeError
  | otherError (tag : String)
deriving DecidableEq

/-- `has_flag(compiler, flagname)` (setup.py lines 16–27).  The outcome of
`compiler.compile([file.name], extra_postargs=[flagname])` is modelled by
`compileResult : Option PyExc` (`none` = the compile succeeded, `some e` = it
raised exception `e`).  The `try`/`except` catches exactly
`setuptools.distutils.errors.CompileError` and returns `False`; a successful
compile falls through to `return True`; any other exception propagates. -/
def has_flag (compileResult : Option PyExc) : Except PyExc Bool :=
  match compileResult with
  | none => Except.ok true
  | some PyExc.compileError => Except.ok false
  | some e => Except.error e

/-- The ordered candidate list `flags = ['-std=c++14', '-std=c++11']` of
`cpp_flag` (setup.py line 32), newest first. -/
def std_flags : List String := ["-std=c++14", "-std=c++11"]

/-- The message of the `RuntimeError` raised by `cpp_flag` when no candidate
standard flag is supported (setup.py lines 38–39). -/
def unsupported_msg : String :=
  "Unsupported compiler -- at least C++11 support is needed!"

/-- The `for flag in flags` loop of `cpp_flag` (setup.py lines 34–39), over an
abstract probe `probe : String → Bool` standing for the boolean result of
`has_flag(compiler, flag)`.  Returns the loop's result together with the list
of flags actually probed, in probe order. -/
def cpp_flag_loop (probe : String → Bool) : List String → Except PyExc String × List String
  | [] => (Except.error (PyExc.runtimeError unsupported_msg), [])
  | f :: rest =>
    if probe f then (Except.ok f, [f])
    else
      let r := cpp_flag_loop probe rest
      (r.1, f :: r.2)

/-- `cpp_flag(compiler)` (setup.py lines 30–39): the first candidate standard
flag accepted by the compiler, or `RuntimeError` if none is. -/
def cpp_flag (probe : String → Bool) : Except PyExc String :=
  (cpp_flag_loop probe std_flags).1

/-- The list of flags that `cpp_flag` actually submits to `has_flag`, in
order (observable probe trace of the same loop). -/
def cpp_flag_tested (probe : String → Bool) : List String :=
  (cpp_flag_loop probe std_flags).2

/-- The filesystem state observed and mutated by `extract_boost`:
whether `os.path.isdir('lib/boost')` holds, the directory-listing-order result
of `glob(os.path.join('lib', 'boost*.tar.gz'))`, and a counter of how many
times `tar.extractall` has been invoked (observable write count). -/
structure BoostFS where
  boost_dir_exists : Bool
  archives : List String
  extract_count : Nat
deriving DecidableEq

/-- One run of `extract_boost`: the resulting filesystem state, whether
`tarfile.open` was reached, whether `tar.close()` was reached, and the
exception (if any) that propagated out of the call. -/
structure ExtractRun where
  fs : BoostFS
  opened : Bool
  closed : Bool
  error : Option PyExc
deriving DecidableEq

/-- `extract_boost()` (setup.py lines 87–94).  If `lib/boost` is already a
directory, nothing happens.  Otherwise `glob(...)[0]` raises `IndexError`
when no archive matches; else the first match is opened with `tarfile.open`,
`tar.extractall(path='lib/boost')` runs — on success it creates `lib/boost`
and then `tar.close()` runs; if extraction raises, the exception propagates
immediately and `tar.close()` is never reached (there is no `with` block or
`try`/`finally` around the handle).  `extract_ok` says whether this
invocation's `extractall` succeeds; `fail_leaves_dir` says whether a failed
`extractall` had already created the destination directory before failing. -/
def extract_boost (extract_ok fail_leaves_dir : Bool) (fs : BoostFS) : ExtractRun :=
  if fs.boost_dir_exists then
    { fs := fs, opened := false, closed := false, error := none }
  else
    match fs.archives with
    | [] => { fs := fs, opened := false, closed := false, error := some PyExc.indexError }
    | _ :: _ =>
      if extract_ok then
        { fs := { boost_dir_exists := true, archives := fs.archives,
                  extract_count := fs.extract_count + 1 },
          opened := true, closed := true, error := none }
      else
        { fs := { boost_dir_exists := fail_leaves_dir, archives := fs.archives,
                  extract_count := fs.extract_count + 1 },
          opened := true, closed := false,
          error := some (PyExc.otherError "ExtractError") }

/-- The class-scope flag tables `BuildExt.c_opts` and `BuildExt.l_opts`
(setup.py lines 44–51), one field per `(table, toolchain family)` pair.
These are shared mutable state: `self.c_opts.get(ct, [])` returns the very
list object stored here, and `opts.append(...)` mutates it in place. -/
structure BuildTables where
  c_msvc : List String
  c_unix : List String
  l_msvc : List String
  l_unix : List String
deriving DecidableEq

/-- `darwin_opts` (setup.py line 54). -/
def darwin_opts : List String := ["-stdlib=libc++", "-mmacosx-version-min=10.7"]

/-- The tables as created at class-definition time (setup.py lines 44–56):
`c_opts = {'msvc': ['/EHsc'], 'unix': []}`, `l_opts = {'msvc': [], 'unix': []}`,
with `darwin_opts` appended to both `unix` entries when
`sys.platform == 'darwin'`. -/
def base_tables (darwin : Bool) : BuildTables :=
  { c_msvc := ["/EHsc"],
    c_unix := if darwin then darwin_opts else [],
    l_msvc := [],
    l_unix := if darwin then darwin_opts else [] }

/-- The unquoted direct-define form `'-DVERSION_INFO="%s"'` of the version
macro (setup.py lines 64 and 72). -/
def vinfo_plain (version : String) : String :=
  "-DVERSION_INFO=\"" ++ version ++ "\""

/-- The backslash-escaped-quote form `'/DVERSION_INFO=\\"%s\\"'` used for
msvc before Python 3.9 (setup.py lines 74–75). -/
def vinfo_escaped (version : String) : String :=
  "/DVERSION_INFO=\\\"" ++ version ++ "\\\""

/-- The legacy flag removed defensively from `compiler.compiler_so`
(setup.py line 77). -/
def strict_prototypes : String := "-Wstrict-prototypes"

/-- The bare statement `self.compiler.compiler_so.remove('-Wstrict-prototypes')`
(setup.py line 77), before any exception handling: `so = none` models a
compiler object with no `compiler_so` attribute (`AttributeError`); an absent
element makes `list.remove` raise `ValueError`; otherwise the first occurrence
is removed in place. -/
def remove_attempt (so : Option (List String)) : Except PyExc (List String) :=
  match so with
  | none => Except.error PyExc.attributeError
  | some l =>
    if strict_prototypes ∈ l then Except.ok (l.erase strict_prototypes)
    else Except.error PyExc.valueError

/-- The full `try: ... remove ... except (AttributeError, ValueError): pass`
statement (setup.py lines 76–79): exactly `AttributeError` and `ValueError`
are swallowed, leaving the collection as it was; any other exception would
propagate. -/
def remove_strict_prototypes (so : Option (List String)) :
    Except PyExc (Option (List String)) :=
  match remove_attempt so with
  | Except.ok l => Except.ok (some l)
  | Except.error PyExc.attributeError => Except.ok so
  | Except.error PyExc.valueError => Except.ok so
  | Except.error e => Except.error e

/-- One run of `BuildExt.build_extensions`: the class tables after the run,
the `compiler_so` collection after the run, and either the pair
`(opts, link_opts)` finally assigned to every extension's
`extra_compile_args` / `extra_link_args`, or the exception that propagated. -/
structure BuildRun where
  tables : BuildTables
  compiler_so : Option (List String)
  outcome : Except PyExc (List String × List String)

/-- `BuildExt.build_extensions(self)` (setup.py lines 58–84).
Inputs: `ct = self.compiler.compiler_type`; `version =
self.distribution.get_version()`; `pyGE39` = `sys.version_info >= (3, 9)`;
`probe flag` = the boolean result of `has_flag(self.compiler, flag)`
(probes assumed not to raise); `so` = `self.compiler.compiler_so`
(`none` if absent); `t` = the current class-level tables.

`opts = self.c_opts.get(ct, [])` aliases the class table entry, so every
`opts.append(...)` writes back into `t`; in the `unix` branch the version
macro is appended *before* `cpp_flag` is called, so it is already in the
table if `cpp_flag` raises. -/
def build_extensions (ct version : String) (pyGE39 : Bool) (probe : String → Bool)
    (so : Option (List String)) (t : BuildTables) : BuildRun :=
  if ct = "unix" then
    let opts1 := t.c_unix ++ [vinfo_plain version]
    match cpp_flag probe with
    | Except.error e =>
      { tables := { t with c_unix := opts1 }, compiler_so := so,
        outcome := Except.error e }
    | Except.ok stdflag =>
      let opts2 := opts1 ++ [stdflag]
      let opts3 :=
        if probe "-fvisibility=hidden" then opts2 ++ ["-fvisibility=hidden"] else opts2
      match remove_strict_prototypes so with
      | Except.ok so2 =>
        { tables := { t with c_unix := opts3 }, compiler_so := so2,
          outcome := Except.ok (opts3, t.l_unix) }
      | Except.error e =>
        { tables := { t with c_unix := opts3 }, compiler_so := so,
          outcome := Except.error e }
  else if ct = "msvc" then
    let opts1 :=
      t.c_msvc ++ [if pyGE39 then vinfo_plain version else vinfo_escaped version]
    match remove_strict_prototypes so with
    | Except.ok so2 =>
      { tables := { t with c_msvc := opts1 }, compiler_so := so2,
        outcome := Except.ok (opts1, t.l_msvc) }
    | Except.error e =>
      { tables := { t with c_msvc := opts1 }, compiler_so := so,
        outcome := Except.error e }
  else
    match remove_strict_prototypes so with
    | Except.ok so2 =>
      { tables := t, compiler_so := so2, outcome := Except.ok ([], []) }
    | Except.error e =>
      { tables := t, compiler_so := so, outcome := Except.error e }

/-- A filesystem entry as seen by `os.walk` / `glob` / `os.path.isdir`:
either a plain file or a directory with an ordered list of children
(directory-listing order). -/
inductive FsEntry where
  | file : String → FsEntry
  | dir : String → List FsEntry → FsEntry

/-- The basename of an entry. -/
def FsEntry.name : FsEntry → String
  | .file n => n
  | .dir n _ => n

/-- `os.path.isdir` on an entry. -/
def FsEntry.isDir : FsEntry → Bool
  | .file _ => false
  | .dir _ _ => true

/-- `os.path.join(p, n)` for the relative paths used here. -/
def pjoin (p n : String) : String := p ++ "/" ++ n

/-- Whether a basename begins with a dot — exactly the names that the
pattern `*` of `glob` does *not* match (fnmatch hides leading-dot names). -/
def startsWithDot (n : String) : Bool :=
  match n.data with
  | [] => false
  | c :: _ => c = '.'

/-- `os.walk(p)` on the entry rooted at path `p`: the `(dirpath, entries)`
pairs of every directory in the tree, top-down, children in listing order
(`x[0]` of the Python triple is the `dirpath` component; the entries stand
for `dirnames + filenames`).  Walking a non-directory yields nothing. -/
def walk (p : String) : FsEntry → List (String × List FsEntry)
  | .file _ => []
  | .dir _ cs => (p, cs) :: (cs.attach.map (fun c => walk (pjoin p c.1.name) c.1)).flatten
decreasing_by
  have := List.sizeOf_lt_of_mem c.2
  simp only [FsEntry.dir.sizeOf_spec]
  omega

/-- The body of the `get_files` loop for one path (setup.py lines 138–141):
`[y for x in os.walk(path) for y in glob(os.path.join(x[0], '*'))
  if not os.path.isdir(y)]` — for each walked directory, the entries whose
names `*` matches (no leading dot), joined to the dirpath, keeping those that
are not directories. -/
def get_files_one (path : String) (root : FsEntry) : List String :=
  ((walk path root).map (fun pr =>
    ((pr.2.filter (fun c => !(startsWithDot c.name))).filter (fun c => !c.isDir)).map
      (fun c => pjoin pr.1 c.name))).flatten

/-- `get_files(paths)` (setup.py lines 134–143): one list per path, appended
to `sources` in order — a list of lists, not a flat list.  `fsOf p` is the
filesystem tree rooted at path `p`. -/
def get_files (fsOf : String → FsEntry) (paths : List String) : List (List String) :=
  paths.map (fun p => get_files_one p (fsOf p))

/-- `get_include_paths()` (setup.py lines 125–131). -/
def get_include_paths : List String :=
  ["boost", "eigen", "eigen/unsupported", "vinecopulib/include",
   "wdm/include"].map (fun path => "lib/" ++ path)

/-- Modelled from the spec's words (for comparison with `get_files_one`):
"recursively walking every include directory, collecting every filesystem
entry that is not itself a directory" — all non-directory entries of the
tree, hidden or not, each at its joined path. -/
def spec_dep_files (path : String) : FsEntry → List String
  | .file _ => []
  | .dir _ cs =>
    (cs.attach.map (fun c =>
      (if c.1.isDir then [] else [pjoin path c.1.name]) ++
        spec_dep_files (pjoin path c.1.name) c.1)).flatten
decreasing_by
  have := List.sizeOf_lt_of_mem c.2
  simp only [FsEntry.dir.sizeOf_spec]
  omega

/-- Like `spec_dep_files` but collecting only the non-directory entries whose
basename does not begin with a dot — the collection `get_files_one` actually
computes, up to order. -/
def spec_dep_files_vis (path : String) : FsEntry → List String
  | .file _ => []
  | .dir _ cs =>
    (cs.attach.map (fun c =>
      (if !c.1.isDir && !(startsWithDot c.1.name) then [pjoin path c.1.name] else []) ++
        spec_dep_files_vis (pjoin path c.1.name) c.1)).flatten
decreasing_by
  have := List.sizeOf_lt_of_mem c.2
  simp only [FsEntry.dir.sizeOf_spec]
  omega

/-! ### Helper lemmas -/

/-- The guarded removal never produces an exception: it yields the original
collection with the first occurrence of the legacy flag erased (a no-op when
the flag is absent or the collection is missing). -/
theorem remove_total (so : Option (List String)) :
    remove_strict_prototypes so
      = Except.ok (so.map (fun l => l.erase strict_prototypes)) := by
  cases so with
  | none => rfl
  | some l =>
    by_cases h : strict_prototypes ∈ l
    · simp [remove_strict_prototypes, remove_attempt, h]
    · simp [remove_strict_prototypes, remove_attempt, h, List.erase_of_not_mem h]

/-- A flag returned by the candidate loop is taken from the candidate list
and was accepted by the probe. -/
theorem cpp_flag_loop_mem (probe : String → Bool) :
    ∀ (l : List String) (s : String),
      (cpp_flag_loop probe l).1 = Except.ok s → s ∈ l ∧ probe s = true
  | [], s, h => by simp [cpp_flag_loop] at h
  | f :: rest, s, h => by
    by_cases hp : probe f
    · simp [cpp_flag_loop, hp] at h
      subst h
      exact ⟨List.mem_cons_self f rest, hp⟩
    · simp [cpp_flag_loop, hp] at h
      have := cpp_flag_loop_mem probe rest s h
      exact ⟨List.mem_cons_of_mem f this.1, this.2⟩

/-- Closed form of the `unix` branch of `build_extensions` when the standard
selection succeeds: the version macro, the selected standard flag and (if
probed successfully) the hardening flag are appended — through the alias —
to the class-level `c_opts['unix']` table, and that grown list is what the
extensions receive. -/
theorem build_ext_unix (version : String) (py : Bool) (probe : String → Bool)
    (so : Option (List String)) (t : BuildTables) (s : String)
    (h : cpp_flag probe = Except.ok s) :
    build_extensions "unix" version py probe so t
      = { tables := { t with c_unix :=
            t.c_unix ++ [vinfo_plain version, s] ++
              (if probe "-fvisibility=hidden" then ["-fvisibility=hidden"] else []) },
          compiler_so := so.map (fun l => l.erase strict_prototypes),
          outcome := Except.ok
            (t.c_unix ++ [vinfo_plain version, s] ++
              (if probe "-fvisibility=hidden" then ["-fvisibility=hidden"] else []),
             t.l_unix) } := by
  simp only [build_extensions, if_pos rfl, h, remove_total]
  cases hv : probe "-fvisibility=hidden" <;> simp [List.append_assoc]

/-- Closed form of the `msvc` branch of `build_extensions`: exactly one flag
— the version macro, in the quoting form selected by the Python-version
threshold — is appended to the class-level `c_opts['msvc']` table. -/
theorem build_ext_msvc (version : String) (py : Bool) (probe : String → Bool)
    (so : Option (List String)) (t : BuildTables) :
    build_extensions "msvc" version py probe so t
      = { tables := { t with c_msvc :=
            t.c_msvc ++ [if py then vinfo_plain version else vinfo_escaped version] },
          compiler_so := so.map (fun l => l.erase strict_prototypes),
          outcome := Except.ok
            (t.c_msvc ++ [if py then vinfo_plain version else vinfo_escaped version],
             t.l_msvc) } := by
  rw [build_extensions, if_neg (by decide), if_pos rfl, remove_total]

end SetupPy

namespace SetupPy

/-! ### C1 / C2 — StandardSelector (`cpp_flag`) -/

/-- C1: `cpp_flag` tests the ordered candidate list
`['-std=c++14', '-std=c++11']` newest-to-oldest and returns the first flag
the probe accepts: if `-std=c++14` is accepted it is returned with
`-std=c++11` left unprobed, and if `-std=c++14` is rejected but `-std=c++11`
accepted, `-std=c++11` is returned (having probed both, in order). -/
theorem cpp_flag_first_match (probe : String → Bool) :
    std_flags = ["-std=c++14", "-std=c++11"] ∧
    (probe "-std=c++14" = true →
      cpp_flag probe = Except.ok "-std=c++14" ∧
        cpp_flag_tested probe = ["-std=c++14"]) ∧
    (probe "-std=c++14" = false → probe "-std=c++11" = true →
      cpp_flag probe = Except.ok "-std=c++11" ∧
        cpp_flag_tested probe = ["-std=c++14", "-std=c++11"]) := by
  refine ⟨rfl, ?_, ?_⟩
  · intro h14
    constructor <;> simp [cpp_flag, cpp_flag_tested, std_flags, cpp_flag_loop, h14]
  · intro h14 h11
    constructor <;> simp [cpp_flag, cpp_flag_tested, std_flags, cpp_flag_loop, h14, h11]

/-- Witness for `cpp_flag_first_match` at a probe accepting only `-std=c++14`. -/
theorem cpp_flag_first_match_wit :
    (fun f => decide (f = "-std=c++14")) "-std=c++14" = true ∧
    cpp_flag (fun f => decide (f = "-std=c++14")) = Except.ok "-std=c++14" ∧
    cpp_flag_tested (fun f => decide (f = "-std=c++14")) = ["-std=c++14"] := by
  have h := (cpp_flag_first_match (fun f => decide (f = "-std=c++14"))).2.1 (by decide)
  exact ⟨by decide, h.1, h.2⟩

/-- C2: if the probe rejects every candidate standard flag, `cpp_flag`
raises `RuntimeError` with the unsupported-compiler message and never
returns a flag. -/
theorem cpp_flag_all_rejected (probe : String → Bool)
    (h : ∀ f ∈ std_flags, probe f = false) :
    cpp_flag probe = Except.error (PyExc.runtimeError unsupported_msg) ∧
    ∀ s : String, cpp_flag probe ≠ Except.ok s := by
  have h14 := h "-std=c++14" (by simp [std_flags])
  have h11 := h "-std=c++11" (by simp [std_flags])
  have heq : cpp_flag probe = Except.error (PyExc.runtimeError unsupported_msg) := by
    simp [cpp_flag, std_flags, cpp_flag_loop, h14, h11]
  refine ⟨heq, fun s hs => ?_⟩
  rw [heq] at hs
  exact Except.noConfusion hs

/-- Witness for `cpp_flag_all_rejected` at the probe rejecting everything. -/
theorem cpp_flag_all_rejected_wit :
    (∀ f ∈ std_flags, (fun _ : String => false) f = false) ∧
    cpp_flag (fun _ : String => false)
      = Except.error (PyExc.runtimeError unsupported_msg) :=
  ⟨fun _ _ => rfl, (cpp_flag_all_rejected (fun _ => false) (fun _ _ => rfl)).1⟩

/-! ### C4 — CompilerProbe (`has_flag`) error policy -/

/-- C4 counterexample: an exception other than `CompileError` raised by the
probe's compile call (e.g. `DistutilsExecError`) does *not* yield `false` —
it propagates out of `has_flag`. -/
theorem has_flag_other_error_propagates :
    has_flag (some (PyExc.otherError "DistutilsExecError")) ≠ Except.ok false ∧
    has_flag (some (PyExc.otherError "DistutilsExecError"))
      = Except.error (PyExc.otherError "DistutilsExecError") :=
  ⟨fun h => Except.noConfusion h, rfl⟩

/-- C4 (amended): `has_flag` maps a successful compile to `true` and a
`CompileError` to the non-exceptional result `false`; every *other* exception
class raised during the probe propagates unchanged instead of yielding
`false`. -/
theorem has_flag_exception_policy (e : PyExc) (h : e ≠ PyExc.compileError) :
    has_flag none = Except.ok true ∧
    has_flag (some PyExc.compileError) = Except.ok false ∧
    has_flag (some e) = Except.error e := by
  refine ⟨rfl, rfl, ?_⟩
  cases e with
  | compileError => exact absurd rfl h
  | runtimeError msg => rfl
  | indexError => rfl
  | valueError => rfl
  | attributeError => rfl
  | otherError tag => rfl

/-- Witness for `has_flag_exception_policy` at `IndexError`. -/
theorem has_flag_exception_policy_wit :
    PyExc.indexError ≠ PyExc.compileError ∧
    has_flag (some PyExc.indexError) = Except.error PyExc.indexError :=
  ⟨by decide, (has_flag_exception_policy PyExc.indexError (by decide)).2.2⟩

/-! ### C3 / C8 — ArchiveExtractor (`extract_boost`) -/

/-- C3: `extract_boost` is idempotent.  If `lib/boost` already exists the
call returns at once with the filesystem untouched (no archive opened, no
extraction performed); and after any call that returns without an exception,
a second call — under any extraction behaviour — is a pure no-op, so the two
calls together run the extraction step at most once. -/
theorem extract_boost_idempotent (eok fdir : Bool) (fs : BoostFS) :
    (fs.boost_dir_exists = true →
      extract_boost eok fdir fs
        = { fs := fs, opened := false, closed := false, error := none }) ∧
    ((extract_boost eok fdir fs).error = none →
      (∀ eok2 fdir2 : Bool,
        extract_boost eok2 fdir2 (extract_boost eok fdir fs).fs
          = { fs := (extract_boost eok fdir fs).fs, opened := false,
              closed := false, error := none }) ∧
      (extract_boost eok fdir fs).fs.extract_count ≤ fs.extract_count + 1) := by
  constructor
  · intro hd
    simp [extract_boost, hd]
  · intro herr
    cases hd : fs.boost_dir_exists with
    | true =>
      constructor
      · intro eok2 fdir2
        simp [extract_boost, hd]
      · simp [extract_boost, hd]
    | false =>
      cases harch : fs.archives with
      | nil => simp [extract_boost, hd, harch] at herr
      | cons a rest =>
        cases heok : eok with
        | false => simp [extract_boost, hd, harch, heok] at herr
        | true =>
          constructor
          · intro eok2 fdir2
            simp [extract_boost, hd, harch, heok]
          · simp [extract_boost, hd, harch, heok]

/-- Witness for `extract_boost_idempotent`: a run that extracts (directory
absent, one archive present) followed by a second call that is a no-op, and
a run on an already-present directory that touches nothing. -/
theorem extract_boost_idempotent_wit :
    (extract_boost true false
        { boost_dir_exists := false, archives := ["lib/boost_1_71_0.tar.gz"],
          extract_count := 0 }).error = none ∧
    extract_boost true false
        (extract_boost true false
          { boost_dir_exists := false, archives := ["lib/boost_1_71_0.tar.gz"],
            extract_count := 0 }).fs
      = { fs := (extract_boost true false
            { boost_dir_exists := false, archives := ["lib/boost_1_71_0.tar.gz"],
              extract_count := 0 }).fs,
          opened := false, closed := false, error := none } ∧
    (extract_boost true false
        { boost_dir_exists := false, archives := ["lib/boost_1_71_0.tar.gz"],
          extract_count := 0 }).fs.extract_count ≤ 0 + 1 ∧
    extract_boost true false
        { boost_dir_exists := true, archives := [], extract_count := 5 }
      = { fs := { boost_dir_exists := true, archives := [], extract_count := 5 },
          opened := false, closed := false, error := none } := by
  have h := (extract_boost_idempotent true false
    { boost_dir_exists := false, archives := ["lib/boost_1_71_0.tar.gz"],
      extract_count := 0 }).2 (by decide)
  have h2 := (extract_boost_idempotent true false
    { boost_dir_exists := true, archives := [], extract_count := 5 }).1 rfl
  exact ⟨by decide, h.1 true false, h.2, h2⟩

/-- C8 counterexample: when `tar.extractall` raises, the archive handle is
*not* closed — the exception propagates past the `tar.close()` line (there is
no `with` block or `try`/`finally`), so on the extraction-failure exit path
the handle is left open. -/
theorem extract_failure_skips_close :
    (extract_boost false false
        { boost_dir_exists := false, archives := ["lib/boost_1_71_0.tar.gz"],
          extract_count := 0 }).opened = true ∧
    (extract_boost false false
        { boost_dir_exists := false, archives := ["lib/boost_1_71_0.tar.gz"],
          extract_count := 0 }).error
      = some (PyExc.otherError "ExtractError") ∧
    (extract_boost false false
        { boost_dir_exists := false, archives := ["lib/boost_1_71_0.tar.gz"],
          extract_count := 0 }).closed = false :=
  ⟨rfl, rfl, rfl⟩

/-- C8 (amended): the archive handle is closed exactly on the exit path
where it was opened and the call returns without an exception — i.e. plain
sequential `open; extractall; close`, with no release on the
extraction-failure path. -/
theorem extract_close_iff (eok fdir : Bool) (fs : BoostFS) :
    (extract_boost eok fdir fs).closed
      = ((extract_boost eok fdir fs).opened
          && (extract_boost eok fdir fs).error.isNone) := by
  cases hd : fs.boost_dir_exists with
  | true => simp [extract_boost, hd]
  | false =>
    cases harch : fs.archives with
    | nil => simp [extract_boost, hd, harch]
    | cons a rest =>
      cases heok : eok with
      | false => simp [extract_boost, hd, harch]
      | true => simp [extract_boost, hd, harch]

/-! ### C9 — defensive removal of `-Wstrict-prototypes` -/

/-- C9: the guarded removal of `-Wstrict-prototypes` never raises (the
`except (AttributeError, ValueError)` covers every exception the statement
can produce); a missing `compiler_so` collection is a silent no-op, and an
absent flag leaves the collection exactly unchanged. -/
theorem remove_legacy_noop (so : Option (List String)) :
    (∃ so2, remove_strict_prototypes so = Except.ok so2) ∧
    remove_strict_prototypes none = Except.ok none ∧
    (∀ l : List String, strict_prototypes ∉ l →
      remove_strict_prototypes (some l) = Except.ok (some l)) := by
  refine ⟨⟨so.map (fun l => l.erase strict_prototypes), remove_total so⟩, rfl, ?_⟩
  intro l hl
  simp [remove_strict_prototypes, remove_attempt, hl]

/-- Witness for `remove_legacy_noop` on a collection not containing the flag. -/
theorem remove_legacy_noop_wit :
    strict_prototypes ∉ ["-O2"] ∧
    remove_strict_prototypes (some ["-O2"]) = Except.ok (some ["-O2"]) :=
  ⟨by decide, (remove_legacy_noop (some ["-O2"])).2.2 ["-O2"] (by decide)⟩

/-! ### C5 — flag resolution is not idempotent -/

/-- C5 counterexample: running the flag computation of `build_extensions`
twice for the `unix` toolchain appends the per-run flags to the shared
class-level table a second time — the second run's compile flag set is not
the first run's set but its duplication. -/
theorem build_ext_second_run_differs :
    (build_extensions "unix" "1.0" true (fun _ => true) none
        (base_tables false)).outcome
      = Except.ok ([vinfo_plain "1.0", "-std=c++14", "-fvisibility=hidden"], []) ∧
    (build_extensions "unix" "1.0" true (fun _ => true) none
        (build_extensions "unix" "1.0" true (fun _ => true) none
          (base_tables false)).tables).outcome
      = Except.ok ([vinfo_plain "1.0", "-std=c++14", "-fvisibility=hidden",
                    vinfo_plain "1.0", "-std=c++14", "-fvisibility=hidden"], []) ∧
    ([vinfo_plain "1.0", "-std=c++14", "-fvisibility=hidden"] : List String)
      ≠ [vinfo_plain "1.0", "-std=c++14", "-fvisibility=hidden",
         vinfo_plain "1.0", "-std=c++14", "-fvisibility=hidden"] :=
  ⟨rfl, rfl, by decide⟩

/-- C5 (amended): because `self.c_opts.get(ct, [])` returns the shared
class-level list and `append` mutates it in place, repeating the `unix` flag
computation appends the version macro, the selected standard flag and the
optional hardening flag again: the second run's compile flag table extends
the first run's by a duplicate copy and so never equals it; the link flag
table, which is never appended to, is unchanged. -/
theorem build_ext_unix_rerun (version : String) (py : Bool) (probe : String → Bool)
    (so : Option (List String)) (t : BuildTables) (s : String)
    (h : cpp_flag probe = Except.ok s) :
    (build_extensions "unix" version py probe so
        (build_extensions "unix" version py probe so t).tables).tables.c_unix
      = (build_extensions "unix" version py probe so t).tables.c_unix ++
          ([vinfo_plain version, s] ++
            (if probe "-fvisibility=hidden" then ["-fvisibility=hidden"] else [])) ∧
    (build_extensions "unix" version py probe so t).tables.c_unix
      ≠ (build_extensions "unix" version py probe so
          (build_extensions "unix" version py probe so t).tables).tables.c_unix ∧
    (build_extensions "unix" version py probe so
        (build_extensions "unix" version py probe so t).tables).tables.l_unix
      = (build_extensions "unix" version py probe so t).tables.l_unix := by
  have e1 := build_ext_unix version py probe so t s h
  have e2 := build_ext_unix version py probe so
    (build_extensions "unix" version py probe so t).tables s h
  refine ⟨?_, ?_, ?_⟩
  · rw [e2]
    simp [List.append_assoc]
  · rw [e2]
    simp only [List.append_assoc]
    intro hc
    have hlen := congrArg List.length hc
    cases hv : probe "-fvisibility=hidden" <;>
      simp [hv, List.length_append] at hlen
  · rw [e2, e1]

/-- Witness for `build_ext_unix_rerun` at an all-accepting probe. -/
theorem build_ext_unix_rerun_wit :
    cpp_flag (fun _ : String => true) = Except.ok "-std=c++14" ∧
    (build_extensions "unix" "1.0" true (fun _ => true) none
        (build_extensions "unix" "1.0" true (fun _ => true) none
          (base_tables false)).tables).tables.c_unix
      = (build_extensions "unix" "1.0" true (fun _ => true) none
          (base_tables false)).tables.c_unix ++
          ([vinfo_plain "1.0", "-std=c++14"] ++
            (if (fun _ : String => true) "-fvisibility=hidden"
              then ["-fvisibility=hidden"] else [])) :=
  ⟨rfl, (build_ext_unix_rerun "1.0" true (fun _ => true) none (base_tables false)
    "-std=c++14" rfl).1⟩

/-! ### C6 / C7 — version-macro formatting and family-specific flag paths -/

/-- C6: the `msvc` family emits the version macro in backslash-escaped-quote
form below the Python 3.9 threshold and in unquoted direct-define form at or
above it, while the `unix` family always uses the unquoted form regardless of
the runtime version. -/
theorem vinfo_formatting (version : String) (probe : String → Bool)
    (so : Option (List String)) (t : BuildTables) :
    (build_extensions "msvc" version false probe so t).outcome
      = Except.ok (t.c_msvc ++ [vinfo_escaped version], t.l_msvc) ∧
    (build_extensions "msvc" version true probe so t).outcome
      = Except.ok (t.c_msvc ++ [vinfo_plain version], t.l_msvc) ∧
    (∀ (py : Bool) (s : String), cpp_flag probe = Except.ok s →
      (build_extensions "unix" version py probe so t).outcome
        = Except.ok (t.c_unix ++ [vinfo_plain version, s] ++
            (if probe "-fvisibility=hidden" then ["-fvisibility=hidden"] else []),
          t.l_unix)) := by
  refine ⟨?_, ?_, ?_⟩
  · simp [build_ext_msvc]
  · simp [build_ext_msvc]
  · intro py s h
    simp [build_ext_unix version py probe so t s h]

/-- Witness for `vinfo_formatting`, discharging the standard-selection
hypothesis of the `unix` conjunct at an all-accepting probe. -/
theorem vinfo_formatting_wit :
    cpp_flag (fun _ : String => true) = Except.ok "-std=c++14" ∧
    (build_extensions "unix" "2.0" false (fun _ => true) none
        (base_tables false)).outcome
      = Except.ok ((base_tables false).c_unix ++ [vinfo_plain "2.0", "-std=c++14"] ++
          (if (fun _ : String => true) "-fvisibility=hidden"
            then ["-fvisibility=hidden"] else []),
        (base_tables false).l_unix) :=
  ⟨rfl, (vinfo_formatting "2.0" (fun _ => true) none (base_tables false)).2.2
    false "-std=c++14" rfl⟩

/-- C7 counterexample: the `msvc` family does *not* have the version macro
skipped — its flag-resolution branch appends a `VERSION_INFO` macro (in
escaped form here) to its compile flag set. -/
theorem msvc_receives_vinfo :
    (build_extensions "msvc" "0.5.5" false (fun _ => false) none
        (base_tables false)).outcome
      = Except.ok (["/EHsc", vinfo_escaped "0.5.5"], []) ∧
    vinfo_escaped "0.5.5" ∈ ["/EHsc", vinfo_escaped "0.5.5"] :=
  ⟨rfl, by simp⟩

/-- C7 (amended): only the `unix` family receives the selected
language-standard flag and the optional hardening flag via this path (the
flag it gains beyond those is the version macro), while the `msvc` family —
the one requiring exception-handling flags by default — receives exactly one
flag here: its own version macro, in family-specific quoting; the macro is
injected for both families, not skipped for `msvc`. -/
theorem family_flag_paths (version : String) (py : Bool) (probe : String → Bool)
    (so : Option (List String)) (t : BuildTables) (s : String)
    (h : cpp_flag probe = Except.ok s) :
    s ∈ std_flags ∧ probe s = true ∧
    (build_extensions "unix" version py probe so t).outcome
      = Except.ok (t.c_unix ++ [vinfo_plain version, s] ++
          (if probe "-fvisibility=hidden" then ["-fvisibility=hidden"] else []),
        t.l_unix) ∧
    (build_extensions "msvc" version py probe so t).outcome
      = Except.ok
          (t.c_msvc ++ [if py then vinfo_plain version else vinfo_escaped version],
           t.l_msvc) := by
  have hm := cpp_flag_loop_mem probe std_flags s h
  refine ⟨hm.1, hm.2, ?_, ?_⟩
  · simp [build_ext_unix version py probe so t s h]
  · simp [build_ext_msvc]

/-- Witness for `family_flag_paths` at a probe accepting only `-std=c++11`. -/
theorem family_flag_paths_wit :
    cpp_flag (fun f => decide (f = "-std=c++11")) = Except.ok "-std=c++11" ∧
    "-std=c++11" ∈ std_flags ∧
    (build_extensions "msvc" "0.5.5" true (fun f => decide (f = "-std=c++11"))
        none (base_tables false)).outcome
      = Except.ok ((base_tables false).c_msvc ++
          [if true then vinfo_plain "0.5.5" else vinfo_escaped "0.5.5"],
        (base_tables false).l_msvc) := by
  have h := family_flag_paths "0.5.5" true (fun f => decide (f = "-std=c++11"))
    none (base_tables false) "-std=c++11" rfl
  exact ⟨rfl, h.1, h.2.2.2⟩

/-! ### C10 — dependency-file enumeration (`get_files`) -/

/-- Structural induction for the nested inductive `FsEntry`. -/
theorem FsEntry.induct (P : FsEntry → Prop)
    (hf : ∀ n, P (FsEntry.file n))
    (hd : ∀ n cs, (∀ c ∈ cs, P c) → P (FsEntry.dir n cs)) :
    ∀ e, P e
  | .file n => hf n
  | .dir n cs => hd n cs (fun c hc => FsEntry.induct P hf hd c)
decreasing_by
  have := List.sizeOf_lt_of_mem hc
  simp only [FsEntry.dir.sizeOf_spec]
  omega

/-- `os.walk` on a non-directory yields nothing. -/
theorem walk_file (p n : String) : walk p (FsEntry.file n) = [] := by
  simp [walk]

/-- `os.walk` on a directory yields the directory itself first, then the
walks of its children in listing order. -/
theorem walk_dir (p n : String) (cs : List FsEntry) :
    walk p (FsEntry.dir n cs)
      = (p, cs) :: (cs.map (fun c => walk (pjoin p c.name) c)).flatten := by
  rw [walk]
  congr 1
  rw [List.map_attach]
  simp

/-- Unfolding `spec_dep_files` on a directory without `attach`. -/
theorem spec_dep_files_dir (p n : String) (cs : List FsEntry) :
    spec_dep_files p (FsEntry.dir n cs)
      = (cs.map (fun c =>
          (if c.isDir then [] else [pjoin p c.name]) ++
            spec_dep_files (pjoin p c.name) c)).flatten := by
  rw [spec_dep_files]
  congr 1
  rw [List.map_attach]
  simp

/-- Unfolding `spec_dep_files_vis` on a directory without `attach`. -/
theorem spec_dep_files_vis_dir (p n : String) (cs : List FsEntry) :
    spec_dep_files_vis p (FsEntry.dir n cs)
      = (cs.map (fun c =>
          (if !c.isDir && !(startsWithDot c.name) then [pjoin p c.name] else []) ++
            spec_dep_files_vis (pjoin p c.name) c)).flatten := by
  rw [spec_dep_files_vis]
  congr 1
  rw [List.map_attach]
  simp

/-- Mapping over a flattened list of lists and flattening again equals
flattening the pointwise mapped-and-flattened lists. -/
theorem flatten_map_flatten {α β : Type} (F : α → List β) (L : List (List α)) :
    (L.flatten.map F).flatten = (L.map (fun xs => (xs.map F).flatten)).flatten := by
  induction L with
  | nil => rfl
  | cons x xs ih =>
    simp only [List.flatten_cons, List.map_append, List.flatten_append,
      List.map_cons, ih]

/-- `get_files_one` on a directory: the globbed visible non-directory
children of the root, followed by the recursive collections of each child. -/
theorem get_files_one_dir (p n : String) (cs : List FsEntry) :
    get_files_one p (FsEntry.dir n cs)
      = ((cs.filter (fun c => !(startsWithDot c.name))).filter
            (fun c => !c.isDir)).map (fun c => pjoin p c.name) ++
        (cs.map (fun c => get_files_one (pjoin p c.name) c)).flatten := by
  rw [get_files_one, walk_dir]
  simp only [List.map_cons, List.flatten_cons]
  rw [flatten_map_flatten, List.map_map]
  rfl

/-- The globbed visible non-directory children, as a flattened pointwise
choice over the child list. -/
theorem glob_files_eq (p : String) (cs : List FsEntry) :
    ((cs.filter (fun c => !(startsWithDot c.name))).filter
        (fun c => !c.isDir)).map (fun c => pjoin p c.name)
      = (cs.map (fun c =>
          if !c.isDir && !(startsWithDot c.name) then [pjoin p c.name]
          else [])).flatten := by
  induction cs with
  | nil => rfl
  | cons c cs ih =>
    cases hdot : startsWithDot c.name with
    | true => simpa [List.filter_cons, hdot] using ih
    | false =>
      cases hdir : c.isDir with
      | true => simpa [List.filter_cons, hdot, hdir] using ih
      | false => simpa [List.filter_cons, hdot, hdir] using ih

/-- Pulling a head collection out of a flattened pointwise append, up to
permutation, given pointwise permutations of the tails. -/
theorem flatten_pair_perm {α β : Type} (e g1 g2 : α → List β) :
    ∀ cs : List α, (∀ c ∈ cs, List.Perm (g1 c) (g2 c)) →
      List.Perm ((cs.map e).flatten ++ (cs.map g1).flatten)
        ((cs.map (fun c => e c ++ g2 c)).flatten)
  | [], _ => by simp
  | c :: cs, hpt => by
    simp only [List.map_cons, List.flatten_cons, List.append_assoc]
    refine List.Perm.append_left (e c) ?_
    have ih := flatten_pair_perm e g1 g2 cs
      (fun x hx => hpt x (List.mem_cons_of_mem c hx))
    have h1 : List.Perm ((cs.map e).flatten ++ (g1 c ++ (cs.map g1).flatten))
        (g1 c ++ ((cs.map e).flatten ++ (cs.map g1).flatten)) := by
      rw [← List.append_assoc, ← List.append_assoc]
      exact List.Perm.append_right _ (List.perm_append_comm)
    refine h1.trans ?_
    exact List.Perm.append (hpt c (List.mem_cons_self c cs)) ih

/-- For every root path and tree, the walk-and-glob collection of
`get_files_one` is, up to order, exactly the visible (non-hidden-named)
non-directory entries of the tree. -/
theorem get_files_one_perm :
    ∀ (e : FsEntry) (p : String),
      List.Perm (get_files_one p e) (spec_dep_files_vis p e) := by
  intro e
  induction e using FsEntry.induct with
  | hf n =>
    intro p
    simp [get_files_one, walk_file, spec_dep_files_vis]
  | hd n cs ih =>
    intro p
    rw [get_files_one_dir, spec_dep_files_vis_dir, glob_files_eq]
    exact flatten_pair_perm _ _ _ cs (fun c hc => ih c hc (pjoin p c.name))

/-- C10 counterexample: on an include directory whose sole entry is the
hidden file `.gitkeep`, the dependency list computed by `get_files_one` is
empty — `glob`'s pattern `*` does not match leading-dot names — while the
collection of "every filesystem entry that is not itself a directory"
(`spec_dep_files`) contains the hidden file. -/
theorem get_files_hidden_differs :
    get_files_one "lib/boost" (FsEntry.dir "boost" [FsEntry.file ".gitkeep"]) = [] ∧
    spec_dep_files "lib/boost" (FsEntry.dir "boost" [FsEntry.file ".gitkeep"])
      = ["lib/boost/.gitkeep"] ∧
    ([] : List String) ≠ ["lib/boost/.gitkeep"] := by
  refine ⟨?_, ?_, by decide⟩
  · simp [get_files_one, walk_dir, walk_file]; decide
  · rw [spec_dep_files_dir]
    simp [spec_dep_files, FsEntry.isDir, pjoin]; decide

/-- C10 (amended): the `depends` collection `get_files get_include_paths`
is one list per include directory (a list of lists), and each per-directory
list is — up to order — the recursive collection of every non-directory
entry whose own name does not begin with a dot; hidden-named files are
omitted (the `glob` pattern `*` skips them). -/
theorem get_files_spec (fsOf : String → FsEntry) :
    List.Forall₂ (fun a b => List.Perm a b) (get_files fsOf get_include_paths)
      (get_include_paths.map (fun p => spec_dep_files_vis p (fsOf p))) := by
  rw [get_files]
  have hgen : ∀ ps : List String,
      List.Forall₂ (fun a b => List.Perm a b)
        (ps.map (fun p => get_files_one p (fsOf p)))
        (ps.map (fun p => spec_dep_files_vis p (fsOf p))) := by
    intro ps
    induction ps with
    | nil => exact List.Forall₂.nil
    | cons p ps ih =>
      exact List.Forall₂.cons (get_files_one_perm (fsOf p) p) ih
  exact hgen get_include_paths

end SetupPy
